import Mathlib

/-!
# Verification of the token / gate / rate-limit core

A shallow embedding of the request-authentication and request-governance
core of the repository (a Next.js todo API): the JWT token service
(`src/lib/jwt.js`), the edge verifier and edge middleware
(`src/unnamed/part_000`), the authentication gate
(`src/unnamed/part_005`), the response helpers (`src/unnamed/part_004`,
first half) and the rate limiter (`src/unnamed/part_004`, second half),
together with theorems settling the specification's claims about them.

Modelling conventions:
* Clocks are explicit `Nat` parameters (`now`), in seconds for JWT code
  and in milliseconds for the rate limiter, matching each library's unit.
* Cryptographic signing is abstracted: a token records the identifier of
  the secret it was signed with (`key`); a signature verifies exactly
  when the verifying secret's identifier equals the token's. Both
  `jsonwebtoken` and `jose` check the signature before the registered
  claims, which the embeddings reproduce.
* Thrown JS errors become `Except String` values carrying the message
  that the catching caller observes.
-/

namespace TodoApi

/-- The claim set the repository's tokens carry in their payload:
`jwt.sign` in `src/lib/jwt.js` embeds `{id, email, role, type}` for
access tokens and `{id, type}` for refresh tokens, so `email` and
`role` are optional. -/
structure Claims where
  id : Nat
  email : Option String
  role : Option String
  typ : String
deriving Repr, DecidableEq

/-- A signed token: payload claims plus the registered claims that
`jwt.sign` adds from its options (`issuer`, `audience`, `expiresIn`),
and the identifier of the signing secret (signature abstraction). -/
structure Token where
  claims : Claims
  iss : String
  aud : String
  exp : Nat
  key : Nat
deriving Repr, DecidableEq

/-- The identity handed to `generateAccessToken`: `{ id, email, role }`. -/
structure Identity where
  id : Nat
  email : String
  role : String
deriving Repr, DecidableEq

/-- `generateAccessToken` (src/lib/jwt.js:26-41): signs
`{id, email, role, type:'access'}` with `JWT_SECRET`, issuer `todo-api`,
audience `todo-app`, expiry `now + expiresIn` (default 15 minutes). -/
def generateAccessToken (secretKey now expiresIn : Nat) (payload : Identity) : Token :=
  { claims := { id := payload.id, email := some payload.email,
                role := some payload.role, typ := "access" }
    iss := "todo-api", aud := "todo-app", exp := now + expiresIn, key := secretKey }

/-- `generateRefreshToken` (src/lib/jwt.js:49-62): signs `{id, type:'refresh'}`
with `JWT_REFRESH_SECRET`, same issuer/audience. -/
def generateRefreshToken (refreshKey now expiresIn : Nat) (id : Nat) : Token :=
  { claims := { id := id, email := none, role := none, typ := "refresh" }
    iss := "todo-api", aud := "todo-app", exp := now + expiresIn, key := refreshKey }

/-- `jsonwebtoken`'s `jwt.verify(token, secret, {issuer, audience})`:
signature first, then expiry (`TokenExpiredError` when `now ≥ exp`),
then audience and issuer (both `JsonWebTokenError` on mismatch). The
error strings are the `error.name` values the caller branches on. -/
def jwtVerifyNode (secretKey now : Nat) (iss aud : String) (t : Token) :
    Except String Claims :=
  if t.key ≠ secretKey then .error "JsonWebTokenError"
  else if t.exp ≤ now then .error "TokenExpiredError"
  else if t.aud ≠ aud then .error "JsonWebTokenError"
  else if t.iss ≠ iss then .error "JsonWebTokenError"
  else .ok t.claims

/-- `verifyAccessToken` (src/lib/jwt.js:84-105): verifies with
`JWT_SECRET`, issuer `todo-api`, audience `todo-app`; rejects
`type ≠ 'access'` with `Invalid token type`; maps `TokenExpiredError`
to `Token has expired` and `JsonWebTokenError` to `Invalid token`. -/
def verifyAccessToken (secretKey now : Nat) (t : Token) : Except String Claims :=
  match jwtVerifyNode secretKey now "todo-api" "todo-app" t with
  | .ok decoded =>
      if decoded.typ ≠ "access" then .error "Invalid token type" else .ok decoded
  | .error e =>
      if e = "TokenExpiredError" then .error "Token has expired"
      else if e = "JsonWebTokenError" then .error "Invalid token"
      else .error e

/-- `verifyRefreshToken` (src/lib/jwt.js:114-135): verifies with
`JWT_REFRESH_SECRET`; rejects `type ≠ 'refresh'` with `Invalid token
type`; maps expiry to `Refresh token has expired` and signature/claim
failure to `Invalid refresh token`. -/
def verifyRefreshToken (refreshKey now : Nat) (t : Token) : Except String Claims :=
  match jwtVerifyNode refreshKey now "todo-api" "todo-app" t with
  | .ok decoded =>
      if decoded.typ ≠ "refresh" then .error "Invalid token type" else .ok decoded
  | .error e =>
      if e = "TokenExpiredError" then .error "Refresh token has expired"
      else if e = "JsonWebTokenError" then .error "Invalid refresh token"
      else .error e

/-- `verifyTokenEdge` (src/unnamed/part_000:56-70): `jose`'s
`jwtVerify(token, secret)` with no options, so only the signature and
the `exp` claim are checked — no issuer, audience or `type` rule. -/
def verifyTokenEdge (secretKey now : Nat) (t : Token) : Except String Claims :=
  if t.key ≠ secretKey then .error "JWSSignatureVerificationFailed"
  else if t.exp ≤ now then .error "JWTExpired"
  else .ok t.claims

/-- Accept/reject decision of a verifier outcome. -/
def exOk : Except String Claims → Bool
  | .ok _ => true
  | .error _ => false

/-- Concrete token exercising the drifted rules: well-formed issuer and
audience, signed with the access secret, unexpired, but of kind
`refresh`. -/
def tokenC1 : Token :=
  { claims := { id := 1, email := some "a@b.c", role := some "User", typ := "refresh" }
    iss := "todo-api", aud := "todo-app", exp := 1000, key := 0 }

/-- A concrete well-formed access token for a `User`-role caller, signed
with secret 0 and expiring at 100. -/
def tokenUser : Token :=
  { claims := { id := 7, email := some "e", role := some "User", typ := "access" }
    iss := "todo-api", aud := "todo-app", exp := 100, key := 0 }

/-- The request surface the core reads: method, path and the headers the
gates and the rate limiter consume. Absent headers are `none`. -/
structure Request where
  method : String
  path : String
  authorization : Option String
  xForwardedFor : Option String
  xRealIP : Option String
  cfConnectingIP : Option String
deriving Repr, DecidableEq

/-- The details object a 429 response carries
(src/unnamed/part_004:284-292). -/
structure RLDetails where
  limit : Nat
  remaining : Nat
  resetTime : String
  retryAfter : Int
deriving Repr, DecidableEq

/-- A wire response: the envelope fields from `errorResponse`
(src/unnamed/part_004:36-48, the body's `code` always equals the HTTP
status there) plus the response headers. -/
structure Response where
  status : Nat
  success : Bool
  error : Option String
  message : Option String
  details : Option RLDetails
  headers : List (String × String)
deriving Repr, DecidableEq

/-- `errorResponse` (src/unnamed/part_004:36-48): `{success:false,
error, code}` with `details` attached only when present. -/
def errorResponse (error : String) (code : Nat) (details : Option RLDetails) : Response :=
  { status := code, success := false, error := some error, message := none,
    details := details, headers := [] }

/-- `unauthorizedResponse` (src/unnamed/part_004:74-76). -/
def unauthorizedResponse (message : String) : Response :=
  errorResponse message 401 none

/-- `forbiddenResponse` (src/unnamed/part_004:81-83). -/
def forbiddenResponse (message : String) : Response :=
  errorResponse message 403 none

/-- `tooManyRequestsResponse` (src/unnamed/part_004:109-111). -/
def tooManyRequestsResponse (message : String) (details : Option RLDetails) : Response :=
  errorResponse message 429 details

/-- `Headers.set`: replace any existing value for the key. -/
def setHeader (r : Response) (k v : String) : Response :=
  { r with headers := (r.headers.filter fun p => p.1 ≠ k) ++ [(k, v)] }

/-- Structural `String.isEmpty`. -/
def strIsEmpty (s : String) : Bool := s.toList.isEmpty

/-- Structural `String.startsWith`. -/
def strStartsWith (s p : String) : Bool := p.toList.isPrefixOf s.toList

/-- Structural `String.drop` (all strings here are ASCII, so character
count and JS UTF-16 index agree). -/
def strDrop (s : String) (n : Nat) : String := String.mk (s.toList.drop n)

/-- Structural `String.dropRight`. -/
def strDropRight (s : String) (n : Nat) : String :=
  String.mk (s.toList.take (s.toList.length - n))

/-- Whether one char list occurs inside another (JS `String.includes`). -/
def listContainsSub (needle : List Char) : List Char → Bool
  | [] => needle.isPrefixOf []
  | c :: rest => needle.isPrefixOf (c :: rest) || listContainsSub needle rest

/-- JS `s.split(',')`: the comma-separated fields, `[""]` for `""`. -/
def splitOnComma (s : String) : List String :=
  (s.toList.foldr
    (fun c acc =>
      match acc with
      | [] => if c = ',' then [[], []] else [[c]]
      | a :: rest => if c = ',' then [] :: a :: rest else (c :: a) :: rest)
    [[]]).map String.mk

/-- JS `String.prototype.trim` restricted to the whitespace characters
that occur in forwarded-for headers. -/
def strTrim (s : String) : String :=
  let ws : Char → Bool := fun c => c = ' ' || c = '\t' || c = '\n' || c = '\r'
  String.mk (((s.toList.dropWhile ws).reverse.dropWhile ws).reverse)

/-- JS truthiness of a nullable string: `null` and `""` are falsy. -/
def truthy : Option String → Bool
  | none => false
  | some s => !strIsEmpty s

/-- `getClientIP` (src/unnamed/part_004:186-199; the identical function
also appears at src/lib/middleware/logger.js:27-40): first entry of
`x-forwarded-for` trimmed, else `cf-connecting-ip`, else `x-real-ip`,
else the sentinel `"unknown"`. -/
def getClientIP (req : Request) : String :=
  if truthy req.xForwardedFor then
    strTrim ((splitOnComma (req.xForwardedFor.getD "")).headD "")
  else if truthy req.cfConnectingIP then req.cfConnectingIP.getD ""
  else if truthy req.xRealIP then req.xRealIP.getD ""
  else "unknown"

/-- Modelled from the claim's stated preference order (forwarded-for
first entry, then `x-real-ip`, then `cf-connecting-ip`, then
`"unknown"`), for comparison against `getClientIP`. -/
def getClientIPClaimed (req : Request) : String :=
  if truthy req.xForwardedFor then
    strTrim ((splitOnComma (req.xForwardedFor.getD "")).headD "")
  else if truthy req.xRealIP then req.xRealIP.getD ""
  else if truthy req.cfConnectingIP then req.cfConnectingIP.getD ""
  else "unknown"

/-- A rate-window entry: `{count, resetTime}` (resetTime in epoch ms). -/
structure RateEntry where
  count : Nat
  resetTime : Nat
deriving Repr, DecidableEq

/-- The `requestCounts` map: key to entry, absent keys mapped to `none`. -/
def RateState := String → Option RateEntry

/-- `Map.set`. -/
def rset (s : RateState) (ip : String) (e : RateEntry) : RateState :=
  fun k => if k = ip then some e else s k

/-- `getRateLimitInfo` (src/unnamed/part_004:217-230): lazily create or
reset the entry when absent or past its `resetTime`; the map is written
only in that branch. -/
def getRateLimitInfo (windowMs now : Nat) (s : RateState) (ip : String) :
    RateEntry × RateState :=
  match s ip with
  | some data =>
      if now > data.resetTime then
        let fresh : RateEntry := ⟨0, now + windowMs⟩
        (fresh, rset s ip fresh)
      else (data, s)
  | none =>
      let fresh : RateEntry := ⟨0, now + windowMs⟩
      (fresh, rset s ip fresh)

/-- The decision record `checkRateLimit` returns. -/
structure RLDecision where
  allowed : Bool
  remaining : Nat
  resetTime : Nat
  limit : Nat
deriving Repr, DecidableEq

/-- `checkRateLimit` (src/unnamed/part_004:235-249): admit iff
`count < maxRequests`; increment (a mutation of the stored entry) only
when admitting; `remaining = max 0 (maxRequests - count)` (truncated
subtraction) reflects the post-increment count. -/
def checkRateLimit (maxRequests windowMs now : Nat) (s : RateState) (ip : String) :
    RLDecision × RateState :=
  let (data, s1) := getRateLimitInfo windowMs now s ip
  let allowed := data.count < maxRequests
  let data' := if allowed then { data with count := data.count + 1 } else data
  let s2 := if allowed then rset s1 ip data' else s1
  ({ allowed := allowed, remaining := maxRequests - data'.count,
     resetTime := data'.resetTime, limit := maxRequests }, s2)

/-- `getSecondsUntilReset` (src/unnamed/part_004:254-256):
`Math.ceil((resetTime - now) / 1000)`, written as the negated floor of
the negated quotient. -/
def getSecondsUntilReset (resetTime now : Int) : Int :=
  -(Int.ediv (now - resetTime) 1000)

/-- Zero-pad a number to a width. -/
def pad (width n : Nat) : String :=
  let s := toString n
  String.mk (List.replicate (width - s.length) '0') ++ s

/-- Gregorian date from days since 1970-01-01 (post-epoch instants). -/
def civilFromDays (z0 : Nat) : Nat × Nat × Nat :=
  let z := z0 + 719468
  let era := z / 146097
  let doe := z % 146097
  let yoe := (doe - doe / 1460 + doe / 36524 - doe / 146096) / 365
  let y := yoe + era * 400
  let doy := doe - (365 * yoe + yoe / 4 - yoe / 100)
  let mp := (5 * doy + 2) / 153
  let d := doy - (153 * mp + 2) / 5 + 1
  let m := if mp < 10 then mp + 3 else mp - 9
  (if m ≤ 2 then y + 1 else y, m, d)

/-- `Date.prototype.toISOString` for a post-epoch instant in epoch ms
(`YYYY-MM-DDTHH:mm:ss.sssZ`, four-digit years). -/
def toISOString (ms : Nat) : String :=
  let s := ms / 1000
  let ymd := civilFromDays (s / 86400)
  pad 4 ymd.1 ++ "-" ++ pad 2 ymd.2.1 ++ "-" ++ pad 2 ymd.2.2 ++ "T" ++
    pad 2 (s / 3600 % 24) ++ ":" ++ pad 2 (s / 60 % 60) ++ ":" ++
    pad 2 (s % 60) ++ "." ++ pad 3 (ms % 1000) ++ "Z"

/-- `withRateLimit` (src/unnamed/part_004:265-303). `isDev` is
`NODE_ENV === 'development'`; in that posture loopback callers bypass
the limiter. Rejection yields `tooManyRequestsResponse` with the retry
details; admission runs the handler and stamps the three
`X-RateLimit-*` headers on its response. -/
def withRateLimit (maxRequests windowMs now : Nat) (isDev : Bool)
    (s : RateState) (req : Request) (handler : Request → Response) :
    Response × RateState :=
  let ip := getClientIP req
  if isDev && (ip == "::1" || ip == "127.0.0.1") then (handler req, s)
  else
    let res := checkRateLimit maxRequests windowMs now s ip
    let dec := res.1
    if !dec.allowed then
      (tooManyRequestsResponse "Too many requests. Please try again later."
        (some { limit := maxRequests, remaining := 0,
                resetTime := toISOString dec.resetTime,
                retryAfter := getSecondsUntilReset dec.resetTime now }), res.2)
    else
      let response := handler req
      let response := setHeader response "X-RateLimit-Limit" (toString dec.limit)
      let response := setHeader response "X-RateLimit-Remaining" (toString dec.remaining)
      let response := setHeader response "X-RateLimit-Reset" (toString dec.resetTime)
      (response, res.2)

/-- The middleware returned by `createRateLimit`
(src/unnamed/part_004:308-353), over its own private map. The source
inlines the same lookup/lazy-reset logic as `getRateLimitInfo`; the
increment happens only after the admission test, and the rejection path
returns before any increment. -/
def createRateLimitStep (maxRequests windowMs now : Nat) (isDev : Bool)
    (s : RateState) (req : Request) (handler : Request → Response) :
    Response × RateState :=
  let ip := getClientIP req
  if isDev && (ip == "::1" || ip == "127.0.0.1") then (handler req, s)
  else
    let (data, s1) := getRateLimitInfo windowMs now s ip
    let allowed := data.count < maxRequests
    if !allowed then
      (tooManyRequestsResponse "Too many requests. Please try again later."
        (some { limit := maxRequests, remaining := 0,
                resetTime := toISOString data.resetTime,
                retryAfter := getSecondsUntilReset data.resetTime now }), s1)
    else
      let data' : RateEntry := { data with count := data.count + 1 }
      let s2 := rset s1 ip data'
      let response := handler req
      let response := setHeader response "X-RateLimit-Limit" (toString maxRequests)
      let response := setHeader response "X-RateLimit-Remaining" (toString (maxRequests - data'.count))
      let response := setHeader response "X-RateLimit-Reset" (toString data'.resetTime)
      (response, s2)

/-- A concrete request carrying a forwarded-for header. -/
def reqForwarded : Request := ⟨"GET", "/api/tasks", none, some "9.9.9.9", none, none⟩

/-- A concrete rate state in which `9.9.9.9` has exhausted a limit of 3
inside a window ending at 500. -/
def stateFull : RateState := fun k => if k = "9.9.9.9" then some ⟨3, 500⟩ else none

/-- A trivial handler returning a fixed response. -/
def okHandler : Request → Response := fun _ => errorResponse "ok" 200 none

/-- `extractTokenFromHeader` (src/lib/jwt.js:157-162): the token after a
`Bearer ` marker, else `null`. -/
def extractTokenFromHeader : Option String → Option String
  | none => none
  | some h => if strStartsWith h "Bearer " then some (strDrop h 7) else none

/-- The identity record `withAuth` selects from the store
(src/unnamed/part_005:32-42); timestamps are irrelevant to the claims
and elided. -/
structure User where
  id : Nat
  name : String
  email : String
  role : String
deriving Repr, DecidableEq

/-- Outcome of `prisma.user.findUnique`: a row, no row, or a thrown
database error. -/
inductive StoreResult where
  | found (u : User)
  | notFound
  | storeError
deriving Repr, DecidableEq

/-- `withAuth` (src/unnamed/part_005:13-65). `vfy` is
`verifyAccessToken` applied to the configured secret and clock (the
token wire format abstracted to a `String → Except`); `store` is the
identity-store collaborator; `roles` is `options.roles` (absent modelled
as `[]`, which the source treats identically to an empty array). The
source's `if (!token)` guard is a JS truthiness test on the extracted
token, so both a missing/ill-formed header (`null`) and an empty
extracted token (a bare `Bearer ` header) answer 401 `No token
provided`. The surrounding try/catch turns a store throw into the
generic 401 `Authentication failed`. On success the handler runs with
the fetched user attached to the request. -/
def withAuth (vfy : String → Except String Claims) (store : Nat → StoreResult)
    (req : Request) (handler : Request → User → Response)
    (roles : List String) : Response :=
  match extractTokenFromHeader req.authorization with
  | none => unauthorizedResponse "No token provided. Please login."
  | some token =>
    if strIsEmpty token then
      unauthorizedResponse "No token provided. Please login."
    else
    match vfy token with
    | .error msg => unauthorizedResponse msg
    | .ok decoded =>
      match store decoded.id with
      | .storeError => unauthorizedResponse "Authentication failed"
      | .notFound => unauthorizedResponse "User not found. Please login again."
      | .found user =>
        if !roles.isEmpty && !(roles.contains user.role) then
          forbiddenResponse ("Access denied. Required role: " ++
            String.intercalate " or " roles)
        else handler req user

/-- `ROUTE_CONFIG.public` (src/unnamed/part_000:13-17). -/
def routeConfigPublic : List String :=
  ["/api/auth/register", "/api/auth/login", "/api/auth/refresh"]

/-- `ROUTE_CONFIG.protected` (src/unnamed/part_000:18-21). -/
def routeConfigProtected : List String := ["/api/tasks", "/api/tasks/.*"]

/-- `ROUTE_CONFIG.adminOnly` (src/unnamed/part_000:22-25). -/
def routeConfigAdminOnly : List String := ["/api/users", "/api/users/.*"]

/-- `matchesPattern` (src/unnamed/part_000:28-36): a pattern containing
`.*` is tested as the anchored regex `^pattern$`, others by equality.
Every wildcard pattern in `ROUTE_CONFIG` is a metacharacter-free
literal stem followed by a trailing `.*`, for which the anchored regex
is exactly prefix matching on the stem. -/
def matchesPattern (path : String) (patterns : List String) : Bool :=
  patterns.any fun pattern =>
    if listContainsSub ".*".toList pattern.toList then
      strStartsWith path (strDropRight pattern 2)
    else path == pattern

/-- `getRouteType` (src/unnamed/part_000:38-43): public, adminOnly,
protected, in that order, defaulting to public. -/
def getRouteType (path : String) : String :=
  if matchesPattern path routeConfigPublic then "public"
  else if matchesPattern path routeConfigAdminOnly then "adminOnly"
  else if matchesPattern path routeConfigProtected then "protected"
  else "public"

/-- `errorResponse` of the edge middleware (src/unnamed/part_000:45-50):
same `{success:false, error, code}` envelope as the shared helper. -/
def edgeErrorResponse (message : String) (status : Nat) : Response :=
  errorResponse message status none

/-- JS `a || b` on a nullable string claim: falsy (`null` or `""`)
falls through to the default. -/
def jsOr (v : Option String) (dflt : String) : String :=
  match v with
  | some s => if strIsEmpty s then dflt else s
  | none => dflt

/-- `payload.id || payload.sub || null` (src/unnamed/part_000:106) on
the repository's claim set, which has no separate `sub`; a zero id is
falsy. -/
def edgeDecodedId (c : Claims) : Option Nat :=
  if c.id = 0 then none else some c.id

/-- `payload.email || null` (src/unnamed/part_000:107). -/
def edgeDecodedEmail (c : Claims) : Option String :=
  match c.email with
  | some s => if strIsEmpty s then none else some s
  | none => none

/-- `payload.role || payload.roles || 'User'` (src/unnamed/part_000:108)
on the repository's claim set, which has no separate `roles`. -/
def edgeDecodedRole (c : Claims) : String := jsOr c.role "User"

/-- The `x-user-*` headers the middleware forwards
(src/unnamed/part_000:128-131); each is set only when truthy. -/
def edgeUserHeaders (c : Claims) : List (String × String) :=
  (match edgeDecodedId c with
   | some i => [("x-user-id", toString i)]
   | none => []) ++
  (match edgeDecodedEmail c with
   | some e => [("x-user-email", e)]
   | none => []) ++
  (if strIsEmpty (edgeDecodedRole c) then [] else [("x-user-role", edgeDecodedRole c)])

/-- Outcome of the edge middleware: pass through untouched
(`NextResponse.next()`), pass through with forwarded user headers, or a
terminal error response. -/
inductive EdgeOutcome where
  | next
  | nextWith (headers : List (String × String))
  | blocked (response : Response)
deriving Repr, DecidableEq

/-- `verifyTokenEdge` on the wire: `decode` abstracts JWS parsing of the
compact serialization; an unparseable string fails as `jose` would. -/
def verifyTokenEdgeStr (decode : String → Option Token) (secretKey now : Nat)
    (tok : String) : Except String Claims :=
  match decode tok with
  | none => .error "JWSInvalid"
  | some t => verifyTokenEdge secretKey now t

/-- `middleware` (src/unnamed/part_000:75-140): public routes pass with
no token; otherwise require a `Bearer` header, verify at the edge,
enforce `Admin` on adminOnly routes, enforce `Admin` on any `DELETE`
under `/api/tasks/`, and forward the decoded user headers. -/
def middleware (secretKey now : Nat) (decode : String → Option Token)
    (req : Request) : EdgeOutcome :=
  let routeType := getRouteType req.path
  if routeType == "public" then .next
  else
    match req.authorization with
    | none => .blocked (edgeErrorResponse "No token provided. Please login." 401)
    | some authHeader =>
      if !strStartsWith authHeader "Bearer " then
        .blocked (edgeErrorResponse "No token provided. Please login." 401)
      else
        match verifyTokenEdgeStr decode secretKey now (strDrop authHeader 7) with
        | .error _ =>
            .blocked (edgeErrorResponse "Invalid or expired token. Please login again." 401)
        | .ok payload =>
          let role := edgeDecodedRole payload
          if routeType == "adminOnly" && role != "Admin" then
            .blocked (edgeErrorResponse "Access denied. Admin role required." 403)
          else if req.method == "DELETE" && strStartsWith req.path "/api/tasks/"
              && role != "Admin" then
            .blocked (edgeErrorResponse "Access denied. Only Admin can delete tasks." 403)
          else
            .nextWith (edgeUserHeaders payload)

end TodoApi

namespace TodoApi

/-- Characterization of the Edge Verifier's accept/reject decision: it
accepts exactly when the signature matches and the token is unexpired. -/
theorem exOk_verifyTokenEdge (key now : Nat) (t : Token) :
    exOk (verifyTokenEdge key now t) =
      (decide (t.key = key) && decide (now < t.exp)) := by
  unfold verifyTokenEdge
  split_ifs with h1 h2 <;> simp_all [exOk]

/-- Characterization of the Token Service's accept/reject decision: it
additionally requires the fixed audience, issuer, and access kind. -/
theorem exOk_verifyAccessToken (key now : Nat) (t : Token) :
    exOk (verifyAccessToken key now t) =
      (decide (t.key = key) && decide (now < t.exp) && decide (t.aud = "todo-app")
        && decide (t.iss = "todo-api") && decide (t.claims.typ = "access")) := by
  unfold verifyAccessToken jwtVerifyNode
  split_ifs <;> simp_all [exOk]
  split_ifs <;> simp_all

/-- C1 fails on the code: an unexpired token of kind `refresh` with
correct issuer/audience, signed with the shared secret, is accepted by
the Edge Verifier but rejected by the Token Service's
`verifyAccessToken`, so the two do not apply the same token-kind rule. -/
theorem c1_counterexample :
    exOk (verifyTokenEdge 0 0 tokenC1) = true ∧
    exOk (verifyAccessToken 0 0 tokenC1) = false := by
  exact ⟨rfl, rfl⟩

/-- C1 (amended): the Edge Verifier checks only the signature and expiry
rules, not issuer, audience, or token kind. Every token `verifyAccessToken`
accepts is accepted at the edge, and on tokens carrying the correct
issuer, audience, and access kind the two verifiers reach the same
accept/reject decision for the same secret and clock. -/
theorem c1_edge_service_refinement :
    (∀ (key now : Nat) (t : Token),
        exOk (verifyAccessToken key now t) = true →
        exOk (verifyTokenEdge key now t) = true) ∧
    (∀ (key now : Nat) (t : Token),
        t.iss = "todo-api" → t.aud = "todo-app" → t.claims.typ = "access" →
        exOk (verifyTokenEdge key now t) = exOk (verifyAccessToken key now t)) := by
  constructor
  · intro key now t h
    rw [exOk_verifyAccessToken] at h
    rw [exOk_verifyTokenEdge]
    simp at h ⊢
    tauto
  · intro key now t hiss haud htyp
    rw [exOk_verifyTokenEdge, exOk_verifyAccessToken]
    simp [hiss, haud, htyp]

/-- Witness for C1's amended theorem at a concrete freshly issued token. -/
theorem c1_edge_service_refinement_witness :
    (exOk (verifyAccessToken 0 5 (generateAccessToken 0 0 900 ⟨1, "a@b.c", "User"⟩)) = true →
      exOk (verifyTokenEdge 0 5 (generateAccessToken 0 0 900 ⟨1, "a@b.c", "User"⟩)) = true) ∧
    exOk (verifyTokenEdge 0 5 (generateAccessToken 0 0 900 ⟨1, "a@b.c", "User"⟩))
      = exOk (verifyAccessToken 0 5 (generateAccessToken 0 0 900 ⟨1, "a@b.c", "User"⟩)) :=
  ⟨c1_edge_service_refinement.1 0 5 _,
   c1_edge_service_refinement.2 0 5 _ rfl rfl rfl⟩

end TodoApi
namespace TodoApi

/-- C2 fails on the code: with the refresh secret distinct from the
access secret (the deployment the source requires), `verifyRefreshToken`
on a freshly issued access token fails at the signature check with
`Invalid refresh token`, not with the wrong-token-kind error
`Invalid token type`. -/
theorem c2_counterexample :
    verifyRefreshToken 1 0 (generateAccessToken 0 0 900 ⟨1, "a@b.c", "User"⟩)
      = .error "Invalid refresh token" ∧
    "Invalid refresh token" ≠ "Invalid token type" := ⟨rfl, by decide⟩

/-- C2 (amended): for every identity, verifying a freshly issued access
token before its expiry succeeds with the identity's id, email, and
role, and `verifyRefreshToken` on that same token fails — with the
invalid-signature error `Invalid refresh token`, since the refresh
secret differs from the access secret. -/
theorem c2_roundtrip (I : Identity) (accessKey refreshKey issuedAt dur now : Nat)
    (hclock : now < issuedAt + dur) (hkeys : accessKey ≠ refreshKey) :
    verifyAccessToken accessKey now (generateAccessToken accessKey issuedAt dur I)
      = .ok { id := I.id, email := some I.email, role := some I.role, typ := "access" } ∧
    verifyRefreshToken refreshKey now (generateAccessToken accessKey issuedAt dur I)
      = .error "Invalid refresh token" := by
  constructor
  · simp [verifyAccessToken, jwtVerifyNode, generateAccessToken, Nat.not_le.mpr hclock]
  · simp [verifyRefreshToken, jwtVerifyNode, generateAccessToken, hkeys]

/-- Witness for C2's amended theorem at a concrete identity and clock. -/
theorem c2_roundtrip_witness :
    verifyAccessToken 0 5 (generateAccessToken 0 0 900 ⟨1, "a@b.c", "User"⟩)
      = .ok { id := 1, email := some "a@b.c", role := some "User", typ := "access" } ∧
    verifyRefreshToken 1 5 (generateAccessToken 0 0 900 ⟨1, "a@b.c", "User"⟩)
      = .error "Invalid refresh token" :=
  c2_roundtrip ⟨1, "a@b.c", "User"⟩ 0 1 0 900 5 (by decide) (by decide)

end TodoApi
namespace TodoApi

/-- Admission at an absent key: a fresh entry is created and admitted. -/
theorem checkRateLimit_fresh (L W now : Nat) (s : RateState) (ip : String)
    (h : s ip = none) (hL : 0 < L) :
    checkRateLimit L W now s ip =
      ({ allowed := true, remaining := L - 1, resetTime := now + W, limit := L },
       rset (rset s ip ⟨0, now + W⟩) ip ⟨1, now + W⟩) := by
  simp [checkRateLimit, getRateLimitInfo, h, hL]

/-- Admission inside a live window with remaining budget. -/
theorem checkRateLimit_hit (L W now : Nat) (s : RateState) (ip : String) (e : RateEntry)
    (h : s ip = some e) (hw : now ≤ e.resetTime) (hc : e.count < L) :
    checkRateLimit L W now s ip =
      ({ allowed := true, remaining := L - (e.count + 1), resetTime := e.resetTime,
         limit := L },
       rset s ip ⟨e.count + 1, e.resetTime⟩) := by
  simp [checkRateLimit, getRateLimitInfo, h, Nat.not_lt.mpr hw, hc]

/-- Rejection inside a live window at budget: decision is a rejection
and the store is returned unchanged. -/
theorem checkRateLimit_reject (L W now : Nat) (s : RateState) (ip : String) (e : RateEntry)
    (h : s ip = some e) (hw : now ≤ e.resetTime) (hc : ¬ e.count < L) :
    checkRateLimit L W now s ip =
      ({ allowed := false, remaining := L - e.count, resetTime := e.resetTime,
         limit := L }, s) := by
  simp [checkRateLimit, getRateLimitInfo, h, Nat.not_lt.mpr hw, hc]

/-- Admission after the window expired: the entry is recreated. -/
theorem checkRateLimit_expired (L W now : Nat) (s : RateState) (ip : String) (e : RateEntry)
    (h : s ip = some e) (hw : e.resetTime < now) (hL : 0 < L) :
    checkRateLimit L W now s ip =
      ({ allowed := true, remaining := L - 1, resetTime := now + W, limit := L },
       rset (rset s ip ⟨0, now + W⟩) ip ⟨1, now + W⟩) := by
  simp [checkRateLimit, getRateLimitInfo, h, hw, hL]

end TodoApi
namespace TodoApi

/-- C3: with limit 3, four admissions for one key inside one window
answer allowed = true, true, true, false, and a fifth evaluation after
the window's `resetTime` is allowed with the key's count reset to 1. -/
theorem c3_rate_governor (W t1 t2 t3 t4 t5 : Nat) (ip : String) (s0 : RateState)
    (h0 : s0 ip = none)
    (h2 : t2 ≤ t1 + W) (h3 : t3 ≤ t1 + W) (h4 : t4 ≤ t1 + W) (h5 : t1 + W < t5) :
    (checkRateLimit 3 W t1 s0 ip).1.allowed = true ∧
    (checkRateLimit 3 W t2 (checkRateLimit 3 W t1 s0 ip).2 ip).1.allowed = true ∧
    (checkRateLimit 3 W t3
      (checkRateLimit 3 W t2 (checkRateLimit 3 W t1 s0 ip).2 ip).2 ip).1.allowed = true ∧
    (checkRateLimit 3 W t4 (checkRateLimit 3 W t3
      (checkRateLimit 3 W t2 (checkRateLimit 3 W t1 s0 ip).2 ip).2 ip).2 ip).1.allowed
      = false ∧
    (checkRateLimit 3 W t5 (checkRateLimit 3 W t4 (checkRateLimit 3 W t3
      (checkRateLimit 3 W t2 (checkRateLimit 3 W t1 s0 ip).2 ip).2 ip).2 ip).2 ip).1.allowed
      = true ∧
    (checkRateLimit 3 W t5 (checkRateLimit 3 W t4 (checkRateLimit 3 W t3
      (checkRateLimit 3 W t2 (checkRateLimit 3 W t1 s0 ip).2 ip).2 ip).2 ip).2 ip).2 ip
      = some ⟨1, t5 + W⟩ := by
  have e1 := checkRateLimit_fresh 3 W t1 s0 ip h0 (by norm_num)
  have l1 : (checkRateLimit 3 W t1 s0 ip).2 ip = some ⟨1, t1 + W⟩ := by
    rw [e1]; simp [rset]
  have e2 := checkRateLimit_hit 3 W t2 (checkRateLimit 3 W t1 s0 ip).2 ip
    ⟨1, t1 + W⟩ l1 h2 (by norm_num)
  have l2 : (checkRateLimit 3 W t2 (checkRateLimit 3 W t1 s0 ip).2 ip).2 ip
      = some ⟨2, t1 + W⟩ := by rw [e2]; simp [rset]
  have e3 := checkRateLimit_hit 3 W t3
    (checkRateLimit 3 W t2 (checkRateLimit 3 W t1 s0 ip).2 ip).2 ip
    ⟨2, t1 + W⟩ l2 h3 (by norm_num)
  have l3 : (checkRateLimit 3 W t3
      (checkRateLimit 3 W t2 (checkRateLimit 3 W t1 s0 ip).2 ip).2 ip).2 ip
      = some ⟨3, t1 + W⟩ := by rw [e3]; simp [rset]
  have e4 := checkRateLimit_reject 3 W t4 (checkRateLimit 3 W t3
    (checkRateLimit 3 W t2 (checkRateLimit 3 W t1 s0 ip).2 ip).2 ip).2 ip
    ⟨3, t1 + W⟩ l3 h4 (by norm_num)
  have l4 : (checkRateLimit 3 W t4 (checkRateLimit 3 W t3
      (checkRateLimit 3 W t2 (checkRateLimit 3 W t1 s0 ip).2 ip).2 ip).2 ip).2 ip
      = some ⟨3, t1 + W⟩ := by rw [e4]; exact l3
  have e5 := checkRateLimit_expired 3 W t5 (checkRateLimit 3 W t4 (checkRateLimit 3 W t3
    (checkRateLimit 3 W t2 (checkRateLimit 3 W t1 s0 ip).2 ip).2 ip).2 ip).2 ip
    ⟨3, t1 + W⟩ l4 h5 (by norm_num)
  refine ⟨by rw [e1], by rw [e2], by rw [e3], by rw [e4], by rw [e5],
    by rw [e5]; simp [rset]⟩

/-- Witness for C3 at window 1000 and concrete call times 0,1,2,3,2000. -/
theorem c3_rate_governor_witness :
    (checkRateLimit 3 1000 0 (fun _ => none) "k").1.allowed = true ∧
    (checkRateLimit 3 1000 1 (checkRateLimit 3 1000 0 (fun _ => none) "k").2 "k").1.allowed
      = true ∧
    (checkRateLimit 3 1000 2 (checkRateLimit 3 1000 1
      (checkRateLimit 3 1000 0 (fun _ => none) "k").2 "k").2 "k").1.allowed = true ∧
    (checkRateLimit 3 1000 3 (checkRateLimit 3 1000 2 (checkRateLimit 3 1000 1
      (checkRateLimit 3 1000 0 (fun _ => none) "k").2 "k").2 "k").2 "k").1.allowed = false ∧
    (checkRateLimit 3 1000 2000 (checkRateLimit 3 1000 3 (checkRateLimit 3 1000 2
      (checkRateLimit 3 1000 1 (checkRateLimit 3 1000 0
        (fun _ => none) "k").2 "k").2 "k").2 "k").2 "k").1.allowed = true ∧
    (checkRateLimit 3 1000 2000 (checkRateLimit 3 1000 3 (checkRateLimit 3 1000 2
      (checkRateLimit 3 1000 1 (checkRateLimit 3 1000 0
        (fun _ => none) "k").2 "k").2 "k").2 "k").2 "k").2 "k" = some ⟨1, 3000⟩ :=
  c3_rate_governor 1000 0 1 2 3 2000 "k" (fun _ => none) rfl
    (by norm_num) (by norm_num) (by norm_num) (by norm_num)

/-- C10: inside a live window, an evaluation that rejects leaves the
key's entry untouched — neither `count` nor `resetTime` changes, in both
the shared `checkRateLimit` and the `createRateLimit` variant. -/
theorem c10_reject_no_mutation (L W now : Nat) (s : RateState) (ip : String)
    (e : RateEntry) (h : s ip = some e) (hw : now ≤ e.resetTime) (hc : ¬ e.count < L) :
    checkRateLimit L W now s ip =
      ({ allowed := false, remaining := L - e.count, resetTime := e.resetTime,
         limit := L }, s) ∧
    ∀ (req : Request) (handler : Request → Response) (isDev : Bool),
      getClientIP req = ip →
      (isDev && (getClientIP req == "::1" || getClientIP req == "127.0.0.1")) = false →
      (createRateLimitStep L W now isDev s req handler).2 = s := by
  refine ⟨checkRateLimit_reject L W now s ip e h hw hc, ?_⟩
  intro req handler isDev hip hbp
  simp [createRateLimitStep, hip, hbp, getRateLimitInfo, h, Nat.not_lt.mpr hw, hc]
  split_ifs <;> rfl

/-- Witness for C10 at a concrete exhausted entry. -/
theorem c10_reject_no_mutation_witness :
    checkRateLimit 3 1000 50 (fun k => if k = "a" then some ⟨3, 100⟩ else none) "a" =
      ({ allowed := false, remaining := 3 - 3, resetTime := 100, limit := 3 },
       fun k => if k = "a" then some ⟨3, 100⟩ else none) ∧
    (createRateLimitStep 3 1000 50 false
      (fun k => if k = "a" then some ⟨3, 100⟩ else none)
      ⟨"GET", "/api/tasks", none, some "a", none, none⟩
      (fun _ => errorResponse "x" 200 none)).2
      = (fun k => if k = "a" then some ⟨3, 100⟩ else none) :=
  ⟨(c10_reject_no_mutation 3 1000 50 _ "a" ⟨3, 100⟩ rfl (by norm_num) (by norm_num)).1,
   (c10_reject_no_mutation 3 1000 50 _ "a" ⟨3, 100⟩ rfl (by norm_num) (by norm_num)).2
     ⟨"GET", "/api/tasks", none, some "a", none, none⟩
     (fun _ => errorResponse "x" 200 none) false rfl rfl⟩

/-- C4 fails on the code: with no forwarded-for header and both other
headers present, the code returns the `cf-connecting-ip` value, while
the claim's order would return the `x-real-ip` value. -/
theorem c4_counterexample :
    getClientIP ⟨"GET", "/", none, none, some "1.1.1.1", some "2.2.2.2"⟩ = "2.2.2.2" ∧
    getClientIPClaimed ⟨"GET", "/", none, none, some "1.1.1.1", some "2.2.2.2"⟩
      = "1.1.1.1" ∧
    getClientIP ⟨"GET", "/", none, none, some "1.1.1.1", some "2.2.2.2"⟩ ≠
      getClientIPClaimed ⟨"GET", "/", none, none, some "1.1.1.1", some "2.2.2.2"⟩ :=
  ⟨rfl, rfl, by decide⟩

/-- C4 (amended): the key derivation prefers the forwarded-for header's
first entry, then `cf-connecting-ip`, then `x-real-ip` (the CDN header
before the platform-proxy header), falling back to `unknown`. -/
theorem c4_key_derivation (req : Request) :
    (truthy req.xForwardedFor = true →
      getClientIP req = strTrim ((splitOnComma (req.xForwardedFor.getD "")).headD "")) ∧
    (truthy req.xForwardedFor = false → truthy req.cfConnectingIP = true →
      getClientIP req = req.cfConnectingIP.getD "") ∧
    (truthy req.xForwardedFor = false → truthy req.cfConnectingIP = false →
      truthy req.xRealIP = true → getClientIP req = req.xRealIP.getD "") ∧
    (truthy req.xForwardedFor = false → truthy req.cfConnectingIP = false →
      truthy req.xRealIP = false → getClientIP req = "unknown") := by
  unfold getClientIP
  refine ⟨?_, ?_, ?_, ?_⟩ <;> intros <;> simp_all

/-- Witness for C4's amended theorem at one request per branch. -/
theorem c4_key_derivation_witness :
    getClientIP ⟨"GET", "/", none, some "9.9.9.9, 8.8.8.8", none, none⟩ = "9.9.9.9" ∧
    getClientIP ⟨"GET", "/", none, none, some "1.1.1.1", some "2.2.2.2"⟩ = "2.2.2.2" ∧
    getClientIP ⟨"GET", "/", none, none, some "1.1.1.1", none⟩ = "1.1.1.1" ∧
    getClientIP ⟨"GET", "/", none, none, none, none⟩ = "unknown" :=
  ⟨by have := (c4_key_derivation ⟨"GET", "/", none, some "9.9.9.9, 8.8.8.8", none, none⟩).1
        rfl
      simpa using this,
   (c4_key_derivation ⟨"GET", "/", none, none, some "1.1.1.1", some "2.2.2.2"⟩).2.1 rfl rfl,
   (c4_key_derivation ⟨"GET", "/", none, none, some "1.1.1.1", none⟩).2.2.1 rfl rfl rfl,
   (c4_key_derivation ⟨"GET", "/", none, none, none, none⟩).2.2.2 rfl rfl rfl⟩

/-- C5: the Authentication Gate answers 401 `No token provided. Please
login.` without a bearer token (a missing or non-`Bearer` header, or
the falsy empty token a bare `Bearer ` header extracts), 401 with the
verifier's specific reason
on a failed verification, 401 `User not found. Please login again.` when
the subject is missing from the store, 403 naming the required roles
when the caller's role is outside a non-empty allow-list, and otherwise
runs the wrapped handler with the fetched identity. -/
theorem c5_auth_gate :
    (∀ (vfy : String → Except String Claims) (store : Nat → StoreResult)
        (req : Request) (handler : Request → User → Response) (roles : List String),
      truthy (extractTokenFromHeader req.authorization) = false →
      withAuth vfy store req handler roles =
        unauthorizedResponse "No token provided. Please login.") ∧
    (∀ (vfy : String → Except String Claims) (store : Nat → StoreResult)
        (req : Request) (handler : Request → User → Response) (roles : List String)
        (token msg : String),
      extractTokenFromHeader req.authorization = some token →
      strIsEmpty token = false →
      vfy token = .error msg →
      withAuth vfy store req handler roles = unauthorizedResponse msg) ∧
    (∀ (vfy : String → Except String Claims) (store : Nat → StoreResult)
        (req : Request) (handler : Request → User → Response) (roles : List String)
        (token : String) (decoded : Claims),
      extractTokenFromHeader req.authorization = some token →
      strIsEmpty token = false →
      vfy token = .ok decoded →
      store decoded.id = .notFound →
      withAuth vfy store req handler roles =
        unauthorizedResponse "User not found. Please login again.") ∧
    (∀ (vfy : String → Except String Claims) (store : Nat → StoreResult)
        (req : Request) (handler : Request → User → Response) (roles : List String)
        (token : String) (decoded : Claims) (user : User),
      extractTokenFromHeader req.authorization = some token →
      strIsEmpty token = false →
      vfy token = .ok decoded →
      store decoded.id = .found user →
      roles ≠ [] →
      user.role ∉ roles →
      withAuth vfy store req handler roles =
        forbiddenResponse ("Access denied. Required role: " ++
          String.intercalate " or " roles)) ∧
    (∀ (vfy : String → Except String Claims) (store : Nat → StoreResult)
        (req : Request) (handler : Request → User → Response) (roles : List String)
        (token : String) (decoded : Claims) (user : User),
      extractTokenFromHeader req.authorization = some token →
      strIsEmpty token = false →
      vfy token = .ok decoded →
      store decoded.id = .found user →
      (roles = [] ∨ user.role ∈ roles) →
      withAuth vfy store req handler roles = handler req user) := by
  refine ⟨?_, ?_, ?_, ?_, ?_⟩
  · intro vfy store req handler roles h1
    rcases h : extractTokenFromHeader req.authorization with _ | token
    · simp [withAuth, h]
    · rw [h] at h1
      simp [truthy] at h1
      simp [withAuth, h, h1]
  · intro vfy store req handler roles token msg h1 hne h2
    simp [withAuth, h1, hne, h2]
  · intro vfy store req handler roles token decoded h1 hne h2 h3
    simp [withAuth, h1, hne, h2, h3]
  · intro vfy store req handler roles token decoded user h1 hne h2 h3 h4 h5
    simp [withAuth, h1, hne, h2, h3, h4, h5]
  · intro vfy store req handler roles token decoded user h1 hne h2 h3 h4
    rcases h4 with h4 | h4 <;> simp [withAuth, h1, hne, h2, h3, h4]

/-- Witness for C5: each of the five gate outcomes at a concrete
request, verifier, and store. -/
theorem c5_auth_gate_witness :
    withAuth (fun _ => .error "Invalid token") (fun _ => .notFound)
        ⟨"GET", "/api/tasks", some "Bearer ", none, none, none⟩
        (fun _ _ => errorResponse "ok" 200 none) []
      = unauthorizedResponse "No token provided. Please login." ∧
    withAuth (fun _ => .error "Token has expired") (fun _ => .notFound)
        ⟨"GET", "/api/tasks", some "Bearer t", none, none, none⟩
        (fun _ _ => errorResponse "ok" 200 none) []
      = unauthorizedResponse "Token has expired" ∧
    withAuth (fun _ => .ok ⟨7, some "e", some "User", "access"⟩) (fun _ => .notFound)
        ⟨"GET", "/api/tasks", some "Bearer t", none, none, none⟩
        (fun _ _ => errorResponse "ok" 200 none) []
      = unauthorizedResponse "User not found. Please login again." ∧
    withAuth (fun _ => .ok ⟨7, some "e", some "User", "access"⟩)
        (fun _ => .found ⟨7, "n", "e", "User"⟩)
        ⟨"GET", "/api/users", some "Bearer t", none, none, none⟩
        (fun _ _ => errorResponse "ok" 200 none) ["Admin"]
      = forbiddenResponse ("Access denied. Required role: " ++
          String.intercalate " or " ["Admin"]) ∧
    withAuth (fun _ => .ok ⟨7, some "e", some "User", "access"⟩)
        (fun _ => .found ⟨7, "n", "e", "User"⟩)
        ⟨"GET", "/api/tasks", some "Bearer t", none, none, none⟩
        (fun _ _ => errorResponse "ok" 200 none) ["User", "Admin"]
      = errorResponse "ok" 200 none :=
  ⟨c5_auth_gate.1 _ _ _ _ _ (by decide),
   c5_auth_gate.2.1 _ _ _ _ _ "t" _ (by decide) (by decide) rfl,
   c5_auth_gate.2.2.1 _ _ _ _ _ "t" _ (by decide) (by decide) rfl rfl,
   c5_auth_gate.2.2.2.1 _ _ _ _ _ "t" _ _ (by decide) (by decide) rfl rfl (by decide)
     (by decide),
   c5_auth_gate.2.2.2.2 _ _ _ _ _ "t" _ _ (by decide) (by decide) rfl rfl
     (Or.inr (by decide))⟩

/-- C6: when the identity-store lookup throws inside the gate, every
handler is bypassed and the gate answers the generic 401
`Authentication failed` rather than propagating the failure as a 500. -/
theorem c6_gate_failure_denies
    (vfy : String → Except String Claims) (store : Nat → StoreResult)
    (req : Request) (roles : List String) (token : String) (decoded : Claims)
    (h1 : extractTokenFromHeader req.authorization = some token)
    (hne : strIsEmpty token = false)
    (h2 : vfy token = .ok decoded)
    (h3 : store decoded.id = .storeError) :
    ∀ handler, withAuth vfy store req handler roles =
        unauthorizedResponse "Authentication failed" ∧
      (withAuth vfy store req handler roles).status = 401 := by
  intro handler
  constructor <;> simp [withAuth, h1, hne, h2, h3, unauthorizedResponse, errorResponse]

/-- Witness for C6 at a concrete throwing store. -/
theorem c6_gate_failure_denies_witness :
    withAuth (fun _ => .ok ⟨7, some "e", some "User", "access"⟩) (fun _ => .storeError)
        ⟨"GET", "/api/tasks", some "Bearer t", none, none, none⟩
        (fun _ _ => errorResponse "ok" 200 none) []
      = unauthorizedResponse "Authentication failed" ∧
    (withAuth (fun _ => .ok ⟨7, some "e", some "User", "access"⟩) (fun _ => .storeError)
        ⟨"GET", "/api/tasks", some "Bearer t", none, none, none⟩
        (fun _ _ => errorResponse "ok" 200 none) []).status = 401 :=
  c6_gate_failure_denies _ _ _ [] "t" ⟨7, some "e", some "User", "access"⟩
    (by decide) (by decide) rfl rfl (fun _ _ => errorResponse "ok" 200 none)

/-- The decoded edge role is `Admin` only when the role claim is
literally `Admin`. -/
theorem edgeDecodedRole_ne_admin (c : Claims) (h : c.role ≠ some "Admin") :
    edgeDecodedRole c ≠ "Admin" := by
  unfold edgeDecodedRole jsOr
  cases hr : c.role with
  | none => simp
  | some s =>
    by_cases hs : strIsEmpty s
    · simp [hs]
    · simp [hs]
      intro he
      exact h (by rw [hr, he])

/-- C7: the Edge Gate passes the public `/api/auth/login` path with no
token, answers 403 `Access denied. Admin role required.` on the
adminOnly `/api/users` path for a verified non-Admin token, and answers
403 `Access denied. Only Admin can delete tasks.` for a verified
non-Admin `DELETE` under `/api/tasks/` although such paths classify as
merely protected. -/
theorem c7_edge_gate :
    (∀ (key now : Nat) (decode : String → Option Token) (req : Request),
      req.path = "/api/auth/login" →
      middleware key now decode req = .next) ∧
    (∀ (key now : Nat) (decode : String → Option Token) (req : Request)
        (authHeader : String) (t : Token),
      req.path = "/api/users" →
      req.authorization = some authHeader →
      strStartsWith authHeader "Bearer " = true →
      decode (strDrop authHeader 7) = some t →
      t.key = key → now < t.exp →
      t.claims.role ≠ some "Admin" →
      middleware key now decode req =
        .blocked (edgeErrorResponse "Access denied. Admin role required." 403)) ∧
    (∀ (key now : Nat) (decode : String → Option Token) (req : Request)
        (authHeader : String) (t : Token),
      req.method = "DELETE" →
      getRouteType req.path = "protected" →
      strStartsWith req.path "/api/tasks/" = true →
      req.authorization = some authHeader →
      strStartsWith authHeader "Bearer " = true →
      decode (strDrop authHeader 7) = some t →
      t.key = key → now < t.exp →
      t.claims.role ≠ some "Admin" →
      middleware key now decode req =
        .blocked (edgeErrorResponse "Access denied. Only Admin can delete tasks." 403)) := by
  refine ⟨?_, ?_, ?_⟩
  · intro key now decode req hpath
    have hrt : getRouteType req.path = "public" := by rw [hpath]; decide
    simp [middleware, hrt]
  · intro key now decode req authHeader t hpath hauth hb hdec hkey hexp hrole
    have hrt : getRouteType req.path = "adminOnly" := by rw [hpath]; decide
    have hrole' : edgeDecodedRole t.claims ≠ "Admin" := edgeDecodedRole_ne_admin _ hrole
    simp [middleware, hrt, hauth, hb, verifyTokenEdgeStr, hdec, verifyTokenEdge, hkey,
      Nat.not_le.mpr hexp, hrole']
  · intro key now decode req authHeader t hmeth hrt hpre hauth hb hdec hkey hexp hrole
    have hrole' : edgeDecodedRole t.claims ≠ "Admin" := edgeDecodedRole_ne_admin _ hrole
    simp [middleware, hrt, hauth, hb, verifyTokenEdgeStr, hdec, verifyTokenEdge, hkey,
      Nat.not_le.mpr hexp, hrole', hmeth, hpre]

/-- C9: a path matching none of the configured public, adminOnly, or
protected patterns classifies as public, so the Edge Gate forwards the
request with no token required — the fallback is permissive. -/
theorem c9_unmatched_path_public (req : Request)
    (h1 : matchesPattern req.path routeConfigPublic = false)
    (h2 : matchesPattern req.path routeConfigAdminOnly = false)
    (h3 : matchesPattern req.path routeConfigProtected = false) :
    getRouteType req.path = "public" ∧
    ∀ (key now : Nat) (decode : String → Option Token),
      middleware key now decode req = .next := by
  have hg : getRouteType req.path = "public" := by simp [getRouteType, h1, h2, h3]
  exact ⟨hg, fun key now decode => by simp [middleware, hg]⟩

/-- Witness for C7 at concrete requests and a concrete `User` token. -/
theorem c7_edge_gate_witness :
    middleware 0 0 (fun _ => none) ⟨"GET", "/api/auth/login", none, none, none, none⟩
      = .next ∧
    middleware 0 0 (fun s => if s = "t" then some tokenUser else none)
        ⟨"GET", "/api/users", some "Bearer t", none, none, none⟩
      = .blocked (edgeErrorResponse "Access denied. Admin role required." 403) ∧
    middleware 0 0 (fun s => if s = "t" then some tokenUser else none)
        ⟨"DELETE", "/api/tasks/42", some "Bearer t", none, none, none⟩
      = .blocked (edgeErrorResponse "Access denied. Only Admin can delete tasks." 403) :=
  ⟨c7_edge_gate.1 0 0 (fun _ => none) ⟨"GET", "/api/auth/login", none, none, none, none⟩
     rfl,
   c7_edge_gate.2.1 0 0 (fun s => if s = "t" then some tokenUser else none)
     ⟨"GET", "/api/users", some "Bearer t", none, none, none⟩ "Bearer t" tokenUser
     rfl rfl (by decide) (by decide) rfl (by decide) (by decide),
   c7_edge_gate.2.2 0 0 (fun s => if s = "t" then some tokenUser else none)
     ⟨"DELETE", "/api/tasks/42", some "Bearer t", none, none, none⟩ "Bearer t" tokenUser
     rfl (by decide) (by decide) rfl (by decide) (by decide) rfl (by decide) (by decide)⟩

/-- Witness for C9 at the unconfigured path `/api/health`. -/
theorem c9_unmatched_path_public_witness :
    getRouteType "/api/health" = "public" ∧
    middleware 0 0 (fun _ => none) ⟨"GET", "/api/health", none, none, none, none⟩
      = .next :=
  ⟨(c9_unmatched_path_public ⟨"GET", "/api/health", none, none, none, none⟩
      (by decide) (by decide) (by decide)).1,
   (c9_unmatched_path_public ⟨"GET", "/api/health", none, none, none, none⟩
      (by decide) (by decide) (by decide)).2 0 0 (fun _ => none)⟩

/-- Looking up the key just set by a replace-style header update. -/
theorem lookup_filter_append (l : List (String × String)) (k v : String) :
    ((l.filter fun p => p.1 ≠ k) ++ [(k, v)]).lookup k = some v := by
  simp only [ne_eq, decide_not]
  induction l with
  | nil => simp [List.lookup_cons]
  | cons a t ih =>
    obtain ⟨a1, a2⟩ := a
    by_cases h : a1 = k
    · rw [List.filter_cons_of_neg (by simp [h])]
      exact ih
    · rw [List.filter_cons_of_pos (by simp [h]), List.cons_append, List.lookup_cons]
      simp only [beq_eq_false_iff_ne.mpr (Ne.symm h)]
      exact ih

/-- A replace-style header update leaves other keys' lookups intact. -/
theorem lookup_filter_append_ne (l : List (String × String)) (k v k' : String)
    (h : k' ≠ k) :
    ((l.filter fun p => p.1 ≠ k) ++ [(k, v)]).lookup k' = l.lookup k' := by
  simp only [ne_eq, decide_not]
  induction l with
  | nil => simp [List.lookup_cons, beq_eq_false_iff_ne.mpr h]
  | cons a t ih =>
    obtain ⟨a1, a2⟩ := a
    by_cases ha : a1 = k
    · rw [List.filter_cons_of_neg (by simp [ha])]
      rw [ih, List.lookup_cons]
      simp [beq_eq_false_iff_ne.mpr (ha ▸ h)]
    · rw [List.filter_cons_of_pos (by simp [ha]), List.cons_append,
        List.lookup_cons, List.lookup_cons]
      by_cases hk : k' = a1
      · simp [beq_iff_eq.mpr hk]
      · simp only [beq_eq_false_iff_ne.mpr hk]
        exact ih

/-- `setHeader` makes the key's lookup answer the new value. -/
theorem setHeader_lookup_same (r : Response) (k v : String) :
    (setHeader r k v).headers.lookup k = some v :=
  lookup_filter_append r.headers k v

/-- `setHeader` does not disturb other keys. -/
theorem setHeader_lookup_ne (r : Response) (k v k' : String) (h : k' ≠ k) :
    (setHeader r k v).headers.lookup k' = r.headers.lookup k' :=
  lookup_filter_append_ne r.headers k v k' h

/-- C8: a rate-governed admitted request's response carries the
`X-RateLimit-Limit`, `X-RateLimit-Remaining`, and `X-RateLimit-Reset`
headers, and a rejected request yields status 429 whose details are the
limit, remaining 0, the window reset instant as an ISO-8601 string, and
the whole-second retry delay. -/
theorem c8_rate_limit_responses (L W now : Nat) (isDev : Bool) (s : RateState)
    (req : Request) (handler : Request → Response)
    (hbp : (isDev && (getClientIP req == "::1" || getClientIP req == "127.0.0.1"))
      = false) :
    ((checkRateLimit L W now s (getClientIP req)).1.allowed = true →
      ((withRateLimit L W now isDev s req handler).1.headers.lookup "X-RateLimit-Limit"
          = some (toString (checkRateLimit L W now s (getClientIP req)).1.limit) ∧
        (withRateLimit L W now isDev s req handler).1.headers.lookup
            "X-RateLimit-Remaining"
          = some (toString (checkRateLimit L W now s (getClientIP req)).1.remaining) ∧
        (withRateLimit L W now isDev s req handler).1.headers.lookup "X-RateLimit-Reset"
          = some (toString (checkRateLimit L W now s (getClientIP req)).1.resetTime))) ∧
    ((checkRateLimit L W now s (getClientIP req)).1.allowed = false →
      ((withRateLimit L W now isDev s req handler).1 =
        tooManyRequestsResponse "Too many requests. Please try again later."
          (some { limit := L, remaining := 0,
                  resetTime :=
                    toISOString (checkRateLimit L W now s (getClientIP req)).1.resetTime,
                  retryAfter :=
                    getSecondsUntilReset
                      ((checkRateLimit L W now s (getClientIP req)).1.resetTime : Int)
                      (now : Int) }) ∧
        (withRateLimit L W now isDev s req handler).1.status = 429)) := by
  constructor
  · intro hallow
    have hres : (withRateLimit L W now isDev s req handler).1 =
        setHeader (setHeader (setHeader (handler req) "X-RateLimit-Limit"
            (toString (checkRateLimit L W now s (getClientIP req)).1.limit))
          "X-RateLimit-Remaining"
            (toString (checkRateLimit L W now s (getClientIP req)).1.remaining))
          "X-RateLimit-Reset"
            (toString (checkRateLimit L W now s (getClientIP req)).1.resetTime) := by
      simp [withRateLimit, hbp, hallow]
    rw [hres]
    refine ⟨?_, ?_, ?_⟩
    · rw [setHeader_lookup_ne _ _ _ _ (by decide), setHeader_lookup_ne _ _ _ _ (by decide),
        setHeader_lookup_same]
    · rw [setHeader_lookup_ne _ _ _ _ (by decide), setHeader_lookup_same]
    · rw [setHeader_lookup_same]
  · intro hrej
    have hres : (withRateLimit L W now isDev s req handler).1 =
        tooManyRequestsResponse "Too many requests. Please try again later."
          (some { limit := L, remaining := 0,
                  resetTime :=
                    toISOString (checkRateLimit L W now s (getClientIP req)).1.resetTime,
                  retryAfter :=
                    getSecondsUntilReset
                      ((checkRateLimit L W now s (getClientIP req)).1.resetTime : Int)
                      (now : Int) }) := by
      simp [withRateLimit, hbp, hrej]
    exact ⟨hres, by rw [hres]; rfl⟩

/-- Witness for C8: one admitted and one rejected concrete evaluation. -/
theorem c8_rate_limit_responses_witness :
    ((withRateLimit 3 1000 0 false (fun _ => none) reqForwarded okHandler).1.headers.lookup
        "X-RateLimit-Limit"
      = some (toString (checkRateLimit 3 1000 0 (fun _ => none)
          (getClientIP reqForwarded)).1.limit) ∧
      (withRateLimit 3 1000 0 false (fun _ => none) reqForwarded
          okHandler).1.headers.lookup "X-RateLimit-Remaining"
        = some (toString (checkRateLimit 3 1000 0 (fun _ => none)
            (getClientIP reqForwarded)).1.remaining) ∧
      (withRateLimit 3 1000 0 false (fun _ => none) reqForwarded
          okHandler).1.headers.lookup "X-RateLimit-Reset"
        = some (toString (checkRateLimit 3 1000 0 (fun _ => none)
            (getClientIP reqForwarded)).1.resetTime)) ∧
    ((withRateLimit 3 1000 100 false stateFull reqForwarded okHandler).1 =
      tooManyRequestsResponse "Too many requests. Please try again later."
        (some { limit := 3, remaining := 0,
                resetTime := toISOString (checkRateLimit 3 1000 100 stateFull
                  (getClientIP reqForwarded)).1.resetTime,
                retryAfter := getSecondsUntilReset
                  ((checkRateLimit 3 1000 100 stateFull
                    (getClientIP reqForwarded)).1.resetTime : Int) (100 : Int) }) ∧
      (withRateLimit 3 1000 100 false stateFull reqForwarded okHandler).1.status = 429) :=
  ⟨(c8_rate_limit_responses 3 1000 0 false (fun _ => none) reqForwarded okHandler
      rfl).1 (by decide),
   (c8_rate_limit_responses 3 1000 100 false stateFull reqForwarded okHandler
      rfl).2 (by decide)⟩

end TodoApi
